import Mathlib

/-!
Shallow embedding of the password-generator bot (src/main.py): the
generator, the MarkdownV2 code-span sanitizer, the vault store
(password_manager table) with its pagination and delete command, and the
multi-turn capture conversation driven by button presses and text
messages.  Strings are modelled as Lean `String` except in the sanitizer,
where `List Char` is used so that escaping can be reasoned about
character by character.
-/

/-- The backtick character, written via its code point. -/
def backtick : Char := Char.ofNat 96

/-- The backslash character. -/
def backslash : Char := Char.ofNat 92

/-- Python `str.replace(c, r)` for a single-character pattern `c`,
replacing every occurrence by the character list `r`
(src/main.py line 113 uses exactly two such replaces). -/
def replaceChar (c : Char) (r : List Char) : List Char → List Char
  | [] => []
  | a :: rest =>
    if a = c then r ++ replaceChar c r rest else a :: replaceChar c r rest

/-- The inner escaping of `safe_monospace_password` (src/main.py line 113):
`password.replace("\\", "\\\\").replace(backtick, backslash-backtick)` —
backslashes are doubled first, then backticks are escaped. -/
def codeSpanInner (s : List Char) : List Char :=
  replaceChar backtick [backslash, backtick]
    (replaceChar backslash [backslash, backslash] s)

/-- Model of `safe_monospace_password` (src/main.py lines 107-118): `None` or the
empty string yields the empty string (Python `if not password`); otherwise
the escaped text is wrapped in one backtick on each side. -/
def safe_monospace_password (password : Option (List Char)) : List Char :=
  match password with
  | none => []
  | some [] => []
  | some s => backtick :: (codeSpanInner s ++ [backtick])

/-- Scanner deciding that every backtick of a character list is
immediately preceded by an odd number of backslashes; the accumulator `k`
is the length of the maximal backslash run ending just before the current
position. -/
def oddEscapedFrom : Nat → List Char → Bool
  | _, [] => true
  | k, c :: rest =>
    if c = backtick then decide (k % 2 = 1) && oddEscapedFrom 0 rest
    else if c = backslash then oddEscapedFrom (k + 1) rest
    else oddEscapedFrom 0 rest

/-- Predicate `oddEscaped l` holds when every backtick in `l` sits after an odd
maximal run of backslashes. -/
def oddEscaped (l : List Char) : Bool := oddEscapedFrom 0 l

theorem replaceChar_append (c : Char) (r : List Char) (a b : List Char) :
    replaceChar c r (a ++ b) = replaceChar c r a ++ replaceChar c r b := by
  induction a with
  | nil => rfl
  | cons x xs ih =>
    simp only [List.cons_append, replaceChar]
    by_cases hx : x = c <;> simp [hx, ih]

/-- Escaping a single character: a backslash becomes two backslashes, a
backtick becomes backslash-backtick, anything else is unchanged. -/
def encChar (c : Char) : List Char :=
  if c = backslash then [backslash, backslash]
  else if c = backtick then [backslash, backtick]
  else [c]

theorem codeSpanInner_cons (c : Char) (s : List Char) :
    codeSpanInner (c :: s) = encChar c ++ codeSpanInner s := by
  have h1 : replaceChar backslash [backslash, backslash] (c :: s)
      = (if c = backslash then [backslash, backslash] else [c])
        ++ replaceChar backslash [backslash, backslash] s := by
    by_cases hc : c = backslash <;> simp [replaceChar, hc]
  unfold codeSpanInner
  rw [h1]
  by_cases hc : c = backslash
  · subst hc
    rw [if_pos rfl]
    rw [replaceChar_append]
    have : replaceChar backtick [backslash, backtick] [backslash, backslash]
        = [backslash, backslash] := by decide
    rw [this, encChar, if_pos rfl]
  · rw [if_neg hc, replaceChar_append]
    by_cases hb : c = backtick
    · subst hb
      have : replaceChar backtick [backslash, backtick] [backtick]
          = [backslash, backtick] := by decide
      rw [this, encChar]
      rw [if_neg (by decide), if_pos rfl]
    · have : replaceChar backtick [backslash, backtick] [c] = [c] := by
        simp [replaceChar, hb]
      rw [this, encChar, if_neg hc, if_neg hb]

theorem oddEscapedFrom_cons (k : Nat) (c : Char) (rest : List Char) :
    oddEscapedFrom k (c :: rest)
      = if c = backtick then decide (k % 2 = 1) && oddEscapedFrom 0 rest
        else if c = backslash then oddEscapedFrom (k + 1) rest
        else oddEscapedFrom 0 rest := rfl

theorem oddEscapedFrom_codeSpanInner (s : List Char) :
    ∀ k : Nat, k % 2 = 0 → oddEscapedFrom k (codeSpanInner s) = true := by
  induction s with
  | nil => intro k _; rfl
  | cons c rest ih =>
    intro k hk
    rw [codeSpanInner_cons]
    by_cases hc : c = backslash
    · subst hc
      rw [encChar, if_pos rfl]
      simp only [List.cons_append, List.nil_append]
      rw [oddEscapedFrom_cons, if_neg (by decide), if_pos rfl]
      rw [oddEscapedFrom_cons, if_neg (by decide), if_pos rfl]
      exact ih (k + 2) (by omega)
    · by_cases hb : c = backtick
      · subst hb
        rw [encChar, if_neg hc, if_pos rfl]
        simp only [List.cons_append, List.nil_append]
        rw [oddEscapedFrom_cons, if_neg (by decide), if_pos rfl]
        rw [oddEscapedFrom_cons, if_pos rfl]
        have hodd : (k + 1) % 2 = 1 := by omega
        simp [hodd, ih 0 rfl]
      · rw [encChar, if_neg hc, if_neg hb]
        simp only [List.cons_append, List.nil_append]
        rw [oddEscapedFrom_cons, if_neg hb, if_neg hc]
        exact ih 0 rfl

/-! ## Generator (src/main.py, class PasswordGenerator, lines 41-72) -/

/-- Python `string.ascii_lowercase`. -/
def lowercaseChars : List Char := (List.range 26).map (fun i => Char.ofNat (97 + i))

/-- Python `string.ascii_uppercase`. -/
def uppercaseChars : List Char := (List.range 26).map (fun i => Char.ofNat (65 + i))

/-- Python `string.digits`. -/
def digitChars : List Char := (List.range 10).map (fun i => Char.ofNat (48 + i))

/-- The generator's fixed symbol set (src/main.py line 48). -/
def symbolChars : List Char :=
  ['!', '@', '#', '$', '%', '^', '&', '*', '(', ')', '_', '+', '-', '=',
   '[', ']', '\x7b', '\x7d', '|', ';', ':', ',', '.', '<', '>', '?']

/-- Model of `secrets.choice(chars)`: one uniformly random pick, modelled with an
explicit randomness oracle value `r` reduced modulo the alphabet size. -/
def secrets_choice (chars : List Char) (r : Nat) : Char :=
  chars.getD (r % chars.length) 'a'

/-- Model of the join of repeated `secrets.choice(chars)` draws, with the
oracle supplying the draw for each position. -/
def joinChoices (chars : List Char) (oracle : Nat → Nat) (length : Nat) :
    List Char :=
  (List.range length).map (fun i => secrets_choice chars (oracle i))

/-- Model of `PasswordGenerator.generate_fast` (src/main.py lines 50-53). -/
def generate_fast (length : Nat) (oracle : Nat → Nat) : List Char :=
  joinChoices (lowercaseChars ++ uppercaseChars ++ digitChars ++ symbolChars)
    oracle length

/-- The `chars` accumulation of `generate_custom` (src/main.py lines
58-67): concatenation of the classes whose flag is set. -/
def enabledConcat (useLowercase useUppercase useDigits useSymbols : Bool) :
    List Char :=
  (if useLowercase then lowercaseChars else [])
    ++ (if useUppercase then uppercaseChars else [])
    ++ (if useDigits then digitChars else [])
    ++ (if useSymbols then symbolChars else [])

/-- The fallback alphabet of `generate_custom` (src/main.py line 70):
lowercase+uppercase+digits, symbols excluded. -/
def fallbackChars : List Char := lowercaseChars ++ uppercaseChars ++ digitChars

/-- The final alphabet of `generate_custom` (src/main.py lines 58-70):
the enabled classes, or the fallback when no class is enabled. -/
def customAlphabet (useLowercase useUppercase useDigits useSymbols : Bool) :
    List Char :=
  if (enabledConcat useLowercase useUppercase useDigits useSymbols).isEmpty
  then fallbackChars
  else enabledConcat useLowercase useUppercase useDigits useSymbols

/-- Model of `PasswordGenerator.generate_custom` (src/main.py lines 55-72). -/
def generate_custom (length : Nat)
    (useLowercase useUppercase useDigits useSymbols : Bool)
    (oracle : Nat → Nat) : List Char :=
  joinChoices (customAlphabet useLowercase useUppercase useDigits useSymbols)
    oracle length

theorem secrets_choice_mem (chars : List Char) (r : Nat) (h : chars ≠ []) :
    secrets_choice chars r ∈ chars := by
  have hlen : 0 < chars.length := List.length_pos.mpr h
  have hm : r % chars.length < chars.length := Nat.mod_lt _ hlen
  unfold secrets_choice
  rw [List.getD_eq_getElem chars 'a' hm]
  exact List.getElem_mem hm

theorem joinChoices_length (chars : List Char) (oracle : Nat → Nat)
    (length : Nat) : (joinChoices chars oracle length).length = length := by
  simp [joinChoices]

theorem joinChoices_mem (chars : List Char) (oracle : Nat → Nat)
    (length : Nat) (h : chars ≠ []) :
    ∀ c ∈ joinChoices chars oracle length, c ∈ chars := by
  intro c hc
  simp only [joinChoices, List.mem_map] at hc
  obtain ⟨i, _, rfl⟩ := hc
  exact secrets_choice_mem chars (oracle i) h

theorem mem_enabledConcat (fl fu fd fs : Bool) (c : Char)
    (hc : c ∈ enabledConcat fl fu fd fs) :
    (fl = true ∧ c ∈ lowercaseChars) ∨ (fu = true ∧ c ∈ uppercaseChars) ∨
    (fd = true ∧ c ∈ digitChars) ∨ (fs = true ∧ c ∈ symbolChars) := by
  simp only [enabledConcat, List.mem_append] at hc
  rcases hc with ((h | h) | h) | h
  · cases fl
    · simp at h
    · exact Or.inl ⟨rfl, by simpa using h⟩
  · cases fu
    · simp at h
    · exact Or.inr (Or.inl ⟨rfl, by simpa using h⟩)
  · cases fd
    · simp at h
    · exact Or.inr (Or.inr (Or.inl ⟨rfl, by simpa using h⟩))
  · cases fs
    · simp at h
    · exact Or.inr (Or.inr (Or.inr ⟨rfl, by simpa using h⟩))

theorem enabledConcat_eq_nil (fl fu fd fs : Bool)
    (h : enabledConcat fl fu fd fs = []) :
    fl = false ∧ fu = false ∧ fd = false ∧ fs = false := by
  simp only [enabledConcat, List.append_eq_nil] at h
  obtain ⟨⟨⟨h1, h2⟩, h3⟩, h4⟩ := h
  refine ⟨?_, ?_, ?_, ?_⟩
  · cases fl
    · rfl
    · simp only [if_pos] at h1
      exact absurd h1 (by decide)
  · cases fu
    · rfl
    · simp only [if_pos] at h2
      exact absurd h2 (by decide)
  · cases fd
    · rfl
    · simp only [if_pos] at h3
      exact absurd h3 (by decide)
  · cases fs
    · rfl
    · simp only [if_pos] at h4
      exact absurd h4 (by decide)

theorem customAlphabet_ne_nil (fl fu fd fs : Bool) :
    customAlphabet fl fu fd fs ≠ [] := by
  unfold customAlphabet
  by_cases h : (enabledConcat fl fu fd fs).isEmpty
  · rw [if_pos h]
    decide
  · rw [if_neg h]
    exact fun hnil => h (List.isEmpty_iff.mpr hnil)

/-! ## Pagination (src/main.py lines 638-642 and 1308-1316) -/

/-- The result of the shared pagination computation. -/
structure PageResult where
  totalPages : Nat
  page : Int
  offset : Int
deriving Repr, DecidableEq

/-- The pagination computation used by `show_password_manager`
(page size 5) and `show_password_history_page` (page size 10):
`total_pages = (count + per_page - 1) // per_page`,
`page = max(1, min(page, total_pages))`,
`offset = (page - 1) * per_page`. -/
def paginate (count perPage : Nat) (reqPage : Int) : PageResult :=
  let totalPages : Nat := (count + perPage - 1) / perPage
  let page : Int := max 1 (min reqPage (totalPages : Int))
  { totalPages := totalPages, page := page, offset := (page - 1) * perPage }

/-! ## Vault store (`password_manager` table, src/main.py lines 309-392) -/

/-- One row of the `password_manager` table. -/
structure VaultRow where
  id : Nat
  userId : Nat
  serviceName : String
  username : String
  password : String
  notes : String
deriving Repr, DecidableEq

/-- The `password_manager` table: its rows in insertion order plus the
next value of the autoincrementing primary key. -/
structure VaultDB where
  rows : List VaultRow
  nextId : Nat
deriving Repr, DecidableEq

/-- Model of `save_password_to_manager` (src/main.py lines 310-325): returns
`False` immediately when `ENABLE_STORAGE` is off, otherwise inserts one
row and returns `True`.  The database itself is modelled as reliable, so
the `except` branch is unreachable. -/
def save_password_to_manager (enabled : Bool) (db : VaultDB) (userId : Nat)
    (serviceName username password notes : String) : Bool × VaultDB :=
  if enabled then
    (true,
      { rows := db.rows
          ++ [{ id := db.nextId, userId := userId, serviceName := serviceName,
                username := username, password := password, notes := notes }],
        nextId := db.nextId + 1 })
  else (false, db)

/-- Model of `get_manager_password_count` (src/main.py lines 346-359):
`SELECT COUNT(*) FROM password_manager WHERE user_id = ?`, or 0 when
storage is disabled. -/
def get_manager_password_count (enabled : Bool) (db : VaultDB)
    (userId : Nat) : Nat :=
  if enabled then (db.rows.filter (fun r => r.userId == userId)).length
  else 0

/-- Model of `get_manager_password_by_id` (src/main.py lines 377-392):
`SELECT ... WHERE id = ? AND user_id = ?`, or `None` when storage is
disabled. -/
def get_manager_password_by_id (enabled : Bool) (db : VaultDB)
    (userId passwordId : Nat) : Option VaultRow :=
  if enabled then
    db.rows.find? (fun r => r.id == passwordId && r.userId == userId)
  else none

/-- Model of `delete_manager_password` (src/main.py lines 361-375):
`DELETE FROM password_manager WHERE id = ? AND user_id = ?`, returning
`True`; `False` when storage is disabled. -/
def delete_manager_password (enabled : Bool) (db : VaultDB)
    (userId passwordId : Nat) : Bool × VaultDB :=
  if enabled then
    (true,
      { db with rows :=
          db.rows.filter (fun r => !(r.id == passwordId && r.userId == userId)) })
  else (false, db)

/-- Outcome reported by the `/delete_<id>` command handler. -/
inductive DeleteOutcome
  | storageDisabled
  | notFound
  | deleted
  | deleteFailed
deriving Repr, DecidableEq

/-- Model of `delete_password_command` (src/main.py lines 1939-1980), with the id
already parsed from the command text: the ownership check via
`get_manager_password_by_id` happens before any deletion. -/
def delete_password_command (enabled : Bool) (db : VaultDB)
    (userId passwordId : Nat) : DeleteOutcome × VaultDB :=
  if !enabled then (.storageDisabled, db)
  else
    match get_manager_password_by_id enabled db userId passwordId with
    | none => (.notFound, db)
    | some _ =>
      let r := delete_manager_password enabled db userId passwordId
      if r.1 then (.deleted, r.2) else (.deleteFailed, r.2)

/-! ## Conversation session (src/main.py: `context.user_data` keys used by
`button_handler`, `save_generated_password_to_manager` and
`handle_text_messages`) -/

/-- The conversation-state constants `ASK_SERVICE, ASK_USERNAME,
ASK_PASSWORD, ASK_NOTES = range(4)` (src/main.py line 77). -/
def ASK_SERVICE : Nat := 0

def ASK_USERNAME : Nat := 1

def ASK_PASSWORD : Nat := 2

def ASK_NOTES : Nat := 3

/-- The per-owner `context.user_data` dictionary: `none`/`false` model an
absent key; `user_data.clear()` resets every field to its default. -/
structure Session where
  adding : Bool := false
  savingGenerated : Bool := false
  waitingForService : Bool := false
  convState : Option Nat := none
  serviceName : Option String := none
  username : Option String := none
  passwordToSave : Option String := none
  lastGenerated : Option String := none
deriving Repr, DecidableEq

/-- A fresh/cleared session (empty `user_data`). -/
def emptySession : Session := {}

/-- The inbound events the capture flow reacts to: the relevant
`callback_data` buttons and a free-text message (already stripped, as
`handle_text_messages` strips before validating). -/
inductive Event
  | btnAddPassword
  | btnSaveToManager
  | btnSkipUsername
  | btnSkipNotes
  | btnSkipNotesGenerated
  | btnCancel
  | text (t : String)

/-- The shared tail of the `skip_notes`/`skip_notes_generated` branch of
`button_handler` (src/main.py lines 928-967): read the accumulated
fields, abort and clear when service or password is missing, otherwise
save with empty notes and clear the session. -/
def skipNotesSave (enabled : Bool) (uid : Nat) (s : Session) (db : VaultDB) :
    Session × VaultDB :=
  let serviceName := s.serviceName.getD ""
  let username := s.username.getD ""
  let password := s.passwordToSave.getD ""
  if serviceName = "" ∨ password = "" then (emptySession, db)
  else
    let r := save_password_to_manager enabled db uid serviceName username
      password ""
    (emptySession, r.2)

/-- The state dispatch of `handle_text_messages` (src/main.py lines
1817-1937), applied to the session after its `conv_state` has been
normalised. -/
def handleTextInState (enabled : Bool) (uid : Nat) (s : Session)
    (db : VaultDB) (t : String) (state : Nat) : Session × VaultDB :=
  if state = ASK_SERVICE then
    if t = "" ∨ t.length > 100 then (s, db)
    else ({ s with serviceName := some t, convState := some ASK_USERNAME }, db)
  else if state = ASK_USERNAME then
    if t.length > 200 then (s, db)
    else if s.savingGenerated then
      ({ s with username := some t, convState := some ASK_NOTES }, db)
    else
      ({ s with username := some t, convState := some ASK_PASSWORD }, db)
  else if state = ASK_PASSWORD then
    if t = "" then (s, db)
    else if t.length > 500 then (s, db)
    else ({ s with passwordToSave := some t, convState := some ASK_NOTES }, db)
  else if state = ASK_NOTES then
    if t.length > 1000 then (s, db)
    else
      let serviceName := s.serviceName.getD ""
      let username := s.username.getD ""
      let password := s.passwordToSave.getD ""
      if serviceName = "" ∨ password = "" then (emptySession, db)
      else
        let r := save_password_to_manager enabled db uid serviceName username
          password t
        (emptySession, r.2)
  else (s, db)

/-- Model of `handle_text_messages` (src/main.py lines 1792-1937): free-text input
during the capture conversation.  The text `t` is the stripped message
text; lines 1794-1815 bail out when storage is disabled or no
conversation is active, then normalise a missing `conv_state` to
`ASK_SERVICE` before dispatching on the state. -/
def handle_text_messages (enabled : Bool) (uid : Nat) (s : Session)
    (db : VaultDB) (t : String) : Session × VaultDB :=
  if !enabled then (s, db)
  else if !s.adding && !s.waitingForService then (s, db)
  else
    let s := if s.convState = none then { s with convState := some ASK_SERVICE }
             else s
    handleTextInState enabled uid s db t (s.convState.getD ASK_SERVICE)

/-- One step of the capture flow: the `button_handler` branches relevant
to the conversation (src/main.py lines 748-967) plus
`save_generated_password_to_manager` (lines 395-426) and
`handle_text_messages`. -/
def step (enabled : Bool) (uid : Nat) (s : Session) (db : VaultDB) :
    Event → Session × VaultDB
  | .btnAddPassword =>
    -- lines 882-897: shows the storage-disabled notice when disabled,
    -- otherwise marks the session as adding and enters ASK_SERVICE.
    if enabled then
      ({ s with adding := true, savingGenerated := false,
                convState := some ASK_SERVICE }, db)
    else (s, db)
  | .btnSaveToManager =>
    -- lines 863-868 and 395-426: a missing or empty generated password
    -- (Python `if not password`) only produces an error message.
    if enabled then
      match s.lastGenerated with
      | none => (s, db)
      | some p =>
        if p = "" then (s, db)
        else
          ({ s with passwordToSave := some p, savingGenerated := true,
                    waitingForService := true, convState := some ASK_SERVICE },
           db)
    else (s, db)
  | .btnSkipUsername =>
    -- lines 903-926: store an empty username, then branch on
    -- is_saving_generated.
    if s.savingGenerated then
      ({ s with username := some "", convState := some ASK_NOTES }, db)
    else
      ({ s with username := some "", convState := some ASK_PASSWORD }, db)
  | .btnSkipNotes => skipNotesSave enabled uid s db
  | .btnSkipNotesGenerated => skipNotesSave enabled uid s db
  | .btnCancel =>
    -- `cancel_add_password` (lines 577-612): `user_data.clear()`.
    (emptySession, db)
  | .text t => handle_text_messages enabled uid s db t

/-- Run a list of events through `step`. -/
def runEvents (enabled : Bool) (uid : Nat) :
    Session × VaultDB → List Event → Session × VaultDB
  | p, [] => p
  | (s, db), e :: rest => runEvents enabled uid (step enabled uid s db e) rest

/-! ## Claim theorems -/

/-- C5: `safe_monospace_password` doubles backslashes first and then
backslash-escapes backticks, so in the escaped text every backtick
originating from the input is immediately preceded by an odd number of
backslashes (hence still escaped, and the surrounding monospace span is
not closed prematurely); in particular an input containing both a
backslash and a backtick escapes to a form where the doubled backslash
does not cancel the backtick's escape. -/
theorem c5_codespan_escaping :
    (∀ s : List Char, oddEscaped (codeSpanInner s) = true) ∧
    codeSpanInner ['a', backslash, backtick]
      = ['a', backslash, backslash, backslash, backtick] := by
  constructor
  · intro s
    exact oddEscapedFrom_codeSpanInner s 0 rfl
  · decide

/-- C10: for a missing (`None`) or empty password,
`safe_monospace_password` returns the empty string with no backtick
delimiters (not an empty span of two backticks), and for every non-empty
input it returns the escaped text wrapped in exactly one leading and one
trailing backtick. -/
theorem c10_safe_monospace :
    safe_monospace_password none = [] ∧
    safe_monospace_password (some []) = [] ∧
    ∀ s : List Char, s ≠ [] →
      safe_monospace_password (some s)
        = backtick :: (codeSpanInner s ++ [backtick]) := by
  refine ⟨rfl, rfl, ?_⟩
  intro s hs
  match s with
  | [] => exact absurd rfl hs
  | c :: rest => rfl

/-- C10 witness: the one-character password `x` is wrapped in single
backtick delimiters. -/
theorem c10_safe_monospace_witness :
    (['x'] : List Char) ≠ [] ∧
    safe_monospace_password (some ['x'])
      = backtick :: (codeSpanInner ['x'] ++ [backtick]) :=
  ⟨by decide, c10_safe_monospace.2.2 ['x'] (by decide)⟩

/-- C1 counterexample: with storage disabled,
`save_password_to_manager` returns `False` — the failure indicator that
callers report as a save error — not a success result as the claim
states. -/
theorem c1_counterexample :
    (save_password_to_manager false { rows := [], nextId := 1 } 7
        "Gmail" "bob" "pw" "").1 = false := rfl

/-- C1 amended: with storage disabled, `get_manager_password_count`
returns 0 and `save_password_to_manager` returns `False` while leaving
the store untouched, so no row appears once storage is re-enabled (no
queued writes). -/
theorem c1_disabled_storage :
    ∀ (db : VaultDB) (uid : Nat) (serviceName username password notes : String),
      get_manager_password_count false db uid = 0 ∧
      save_password_to_manager false db uid serviceName username password notes
        = (false, db) ∧
      get_manager_password_count true
          (save_password_to_manager false db uid serviceName username password
            notes).2 uid
        = get_manager_password_count true db uid := by
  intro db uid serviceName username password notes
  exact ⟨rfl, rfl, rfl⟩

/-- C2: deleting a vault id that does not exist for the requesting owner
(nonexistent, or owned by someone else) reports not-found, removes no row
of any owner, and afterwards `get_manager_password_by_id` answers exactly
as before for every owner — in particular the true owner still sees the
untouched row; the ownership check runs before any deletion. -/
theorem c2_delete_foreign_id :
    ∀ (db : VaultDB) (uid pid : Nat),
      (∀ r ∈ db.rows, ¬(r.id = pid ∧ r.userId = uid)) →
      delete_password_command true db uid pid = (.notFound, db) ∧
      ∀ ownerId : Nat,
        get_manager_password_by_id true
            (delete_password_command true db uid pid).2 ownerId pid
          = get_manager_password_by_id true db ownerId pid := by
  intro db uid pid h
  have hfind : db.rows.find? (fun r => r.id == pid && r.userId == uid)
      = none := by
    apply List.find?_eq_none.mpr
    intro r hr hb
    simp only [Bool.and_eq_true, beq_iff_eq] at hb
    exact h r hr hb
  have hcmd : delete_password_command true db uid pid = (.notFound, db) := by
    simp [delete_password_command, get_manager_password_by_id, hfind]
  refine ⟨hcmd, ?_⟩
  intro ownerId
  rw [hcmd]

/-- A concrete one-row store: id 42 belongs to owner 1. -/
def sampleVaultDb : VaultDB :=
  { rows := [{ id := 42, userId := 1, serviceName := "gmail",
               username := "u", password := "pw", notes := "" }],
    nextId := 43 }

/-- C2 witness: owner 2 deleting id 42 (owned by owner 1) gets not-found
and the store is unchanged. -/
theorem c2_delete_foreign_id_witness :
    (∀ r ∈ sampleVaultDb.rows, ¬(r.id = 42 ∧ r.userId = 2)) ∧
    delete_password_command true sampleVaultDb 2 42
      = (.notFound, sampleVaultDb) :=
  ⟨by decide, (c2_delete_foreign_id sampleVaultDb 2 42 (by decide)).1⟩

theorem paginate_eq (count perPage : Nat) (reqPage : Int) :
    paginate count perPage reqPage
      = { totalPages := (count + perPage - 1) / perPage,
          page := max 1 (min reqPage (((count + perPage - 1) / perPage : Nat) : Int)),
          offset := (max 1 (min reqPage (((count + perPage - 1) / perPage : Nat) : Int)) - 1)
            * perPage } := rfl

/-- C3: for every count ≥ 1, page size 5 or 10, and any requested page,
the pagination computation yields `totalPages` equal to the ceiling of
count/pageSize (characterised by `pageSize*(totalPages-1) < count ≤
pageSize*totalPages`), hence at least 1; a page clamped into
`[1, totalPages]`; `offset = (page-1)*pageSize`; and
`0 ≤ offset < count = max(count, 1)`.  In particular `count = 23`,
`pageSize = 10`, requested page 5 gives `totalPages = 3`, page 3,
offset 20. -/
theorem c3_pagination :
    (∀ (count perPage : Nat) (reqPage : Int),
      1 ≤ count → (perPage = 5 ∨ perPage = 10) →
      perPage * ((paginate count perPage reqPage).totalPages - 1) < count ∧
      count ≤ perPage * (paginate count perPage reqPage).totalPages ∧
      1 ≤ (paginate count perPage reqPage).totalPages ∧
      1 ≤ (paginate count perPage reqPage).page ∧
      (paginate count perPage reqPage).page
        ≤ ((paginate count perPage reqPage).totalPages : Int) ∧
      (paginate count perPage reqPage).offset
        = ((paginate count perPage reqPage).page - 1) * perPage ∧
      0 ≤ (paginate count perPage reqPage).offset ∧
      (paginate count perPage reqPage).offset < (max count 1 : Int)) ∧
    paginate 23 10 5 = { totalPages := 3, page := 3, offset := 20 } := by
  constructor
  · intro count perPage reqPage hc hps
    have hA : count ≤ perPage * ((count + perPage - 1) / perPage) := by
      rcases hps with rfl | rfl <;> omega
    have hB : perPage * ((count + perPage - 1) / perPage - 1) < count := by
      rcases hps with rfl | rfl <;> omega
    have hC : 1 ≤ (count + perPage - 1) / perPage := by
      rcases hps with rfl | rfl <;> omega
    have hmax : (max count 1 : Int) = (count : Int) := by
      have : (1 : Int) ≤ (count : Int) := by exact_mod_cast hc
      omega
    rw [paginate_eq]
    set t : Nat := (count + perPage - 1) / perPage with ht
    set pg : Int := max 1 (min reqPage (t : Int)) with hpg
    have h1 : (1 : Int) ≤ pg := le_max_left 1 _
    have hle : pg ≤ (t : Int) := by
      apply max_le
      · exact_mod_cast hC
      · exact min_le_right _ _
    refine ⟨hB, hA, hC, h1, hle, rfl, ?_, ?_⟩
    · exact mul_nonneg (by omega) (by positivity)
    · rw [hmax]
      have hcast : ((t - 1 : Nat) : Int) = (t : Int) - 1 := by
        rw [Nat.cast_sub hC]
        norm_num
      have step1 : (pg - 1) * (perPage : Int) ≤ ((t : Int) - 1) * perPage := by
        apply mul_le_mul_of_nonneg_right (by omega) (by positivity)
      have step2 : ((t : Int) - 1) * (perPage : Int) < (count : Int) := by
        rw [← hcast]
        calc ((t - 1 : Nat) : Int) * (perPage : Int)
            = (((t - 1) * perPage : Nat) : Int) := by push_cast; ring
          _ < (count : Int) := by
              have hB' : (t - 1) * perPage < count := by
                rw [Nat.mul_comm]
                exact hB
              exact_mod_cast hB'
      exact lt_of_le_of_lt step1 step2
  · decide

/-- C3 witness: the concrete instance `count = 23`, `pageSize = 10`,
requested page 5. -/
theorem c3_pagination_witness :
    (1 : Nat) ≤ 23 ∧ ((10 : Nat) = 5 ∨ (10 : Nat) = 10) ∧
    10 * ((paginate 23 10 5).totalPages - 1) < 23 :=
  ⟨by norm_num, Or.inr rfl, (c3_pagination.1 23 10 5 (by norm_num) (Or.inr rfl)).1⟩

/-- C8: `generate_custom` always returns exactly `length` characters, each
drawn from the union of the enabled classes — or, when no class flag is
enabled, from the lowercase+uppercase+digits fallback, which contains no
symbol. -/
theorem c8_generate_custom :
    ∀ (L : Nat) (fl fu fd fs : Bool) (oracle : Nat → Nat), 1 ≤ L →
      (generate_custom L fl fu fd fs oracle).length = L ∧
      (∀ c ∈ generate_custom L fl fu fd fs oracle,
        (fl = true ∧ c ∈ lowercaseChars) ∨ (fu = true ∧ c ∈ uppercaseChars) ∨
        (fd = true ∧ c ∈ digitChars) ∨ (fs = true ∧ c ∈ symbolChars) ∨
        (fl = false ∧ fu = false ∧ fd = false ∧ fs = false ∧
          c ∈ fallbackChars)) ∧
      (∀ c ∈ fallbackChars, c ∉ symbolChars) := by
  intro L fl fu fd fs oracle hL
  refine ⟨joinChoices_length _ _ _, ?_, by decide⟩
  intro c hc
  have hmem : c ∈ customAlphabet fl fu fd fs :=
    joinChoices_mem _ _ _ (customAlphabet_ne_nil fl fu fd fs) c hc
  unfold customAlphabet at hmem
  by_cases hempty : (enabledConcat fl fu fd fs).isEmpty
  · rw [if_pos hempty] at hmem
    obtain ⟨h1, h2, h3, h4⟩ :=
      enabledConcat_eq_nil fl fu fd fs (List.isEmpty_iff.mp hempty)
    exact Or.inr (Or.inr (Or.inr (Or.inr ⟨h1, h2, h3, h4, hmem⟩)))
  · rw [if_neg hempty] at hmem
    rcases mem_enabledConcat fl fu fd fs c hmem with h | h | h | h
    · exact Or.inl h
    · exact Or.inr (Or.inl h)
    · exact Or.inr (Or.inr (Or.inl h))
    · exact Or.inr (Or.inr (Or.inr (Or.inl h)))

/-- C8 witness: length 1 with no class enabled falls back to
lowercase+uppercase+digits. -/
theorem c8_generate_custom_witness :
    (1 : Nat) ≤ 1 ∧
    (generate_custom 1 false false false false (fun _ => 0)).length = 1 :=
  ⟨le_refl 1,
   (c8_generate_custom 1 false false false false (fun _ => 0) (le_refl 1)).1⟩

/-- C9: `generate_fast` always returns exactly `length` characters, each
drawn from the fixed four-class alphabet, and there is no guarantee that
every class appears: a possible draw of length 12 contains no uppercase
letter at all. -/
theorem c9_generate_fast :
    (∀ (L : Nat) (oracle : Nat → Nat), 1 ≤ L →
      (generate_fast L oracle).length = L ∧
      ∀ c ∈ generate_fast L oracle,
        c ∈ lowercaseChars ++ uppercaseChars ++ digitChars ++ symbolChars) ∧
    (∃ oracle : Nat → Nat,
      ∀ c ∈ generate_fast 12 oracle, c ∉ uppercaseChars) := by
  constructor
  · intro L oracle hL
    exact ⟨joinChoices_length _ _ _, joinChoices_mem _ _ _ (by decide)⟩
  · exact ⟨fun _ => 0, by decide⟩

/-- C9 witness: a fast password of the default length 12. -/
theorem c9_generate_fast_witness :
    (1 : Nat) ≤ 12 ∧ (generate_fast 12 (fun _ => 0)).length = 12 :=
  ⟨by norm_num, (c9_generate_fast.1 12 (fun _ => 0) (by norm_num)).1⟩

/-- C4: starting from a fresh non-generated session with storage enabled,
the event sequence add-password, service text `GitHub`, skip-username,
password text `x7Qp#2`, skip-notes appends exactly one vault row for the
owner with empty username, empty notes and password `x7Qp#2`, and clears
the session. -/
theorem c4_skip_path_capture :
    ∀ (uid : Nat) (db : VaultDB),
      runEvents true uid (emptySession, db)
        [.btnAddPassword, .text "GitHub", .btnSkipUsername, .text "x7Qp#2",
         .btnSkipNotes]
        = (emptySession,
           { rows := db.rows
               ++ [{ id := db.nextId, userId := uid, serviceName := "GitHub",
                     username := "", password := "x7Qp#2", notes := "" }],
             nextId := db.nextId + 1 }) := by
  intro uid db
  rfl

/-- C6 counterexample: after an incomplete capture session accumulated
`serviceName = OldService`, `username = bob`, `password = oldpw`,
pressing the add-password button again leaves all three values in the
session — the previous partial data is not discarded, contradicting the
claim that the session then contains no carried-over field value. -/
theorem c6_counterexample :
    (step true 7
        { adding := true, savingGenerated := false,
          convState := some ASK_USERNAME, serviceName := some "OldService",
          username := some "bob", passwordToSave := some "oldpw" }
        { rows := [], nextId := 1 } .btnAddPassword).1.serviceName
      = some "OldService" ∧
    (step true 7
        { adding := true, savingGenerated := false,
          convState := some ASK_USERNAME, serviceName := some "OldService",
          username := some "bob", passwordToSave := some "oldpw" }
        { rows := [], nextId := 1 } .btnAddPassword).1.username
      = some "bob" ∧
    (step true 7
        { adding := true, savingGenerated := false,
          convState := some ASK_USERNAME, serviceName := some "OldService",
          username := some "bob", passwordToSave := some "oldpw" }
        { rows := [], nextId := 1 } .btnAddPassword).1.passwordToSave
      = some "oldpw" := ⟨rfl, rfl, rfl⟩

/-- C6 amended: a new add-password action resets the flow (state back to
AskService, `is_saving_generated` false) and a new save-generated action
additionally overwrites the pending password with the generated one, but
neither action clears previously accumulated serviceName, username or
password values — they remain until overwritten by the new flow. -/
theorem c6_reentry_keeps_fields :
    ∀ (uid : Nat) (s : Session) (db : VaultDB),
      step true uid s db .btnAddPassword
        = ({ s with
              adding := true, savingGenerated := false,
              convState := some ASK_SERVICE }, db) ∧
      (∀ p : String, s.lastGenerated = some p → p ≠ "" →
        step true uid s db .btnSaveToManager
          = ({ s with
                passwordToSave := some p, savingGenerated := true,
                waitingForService := true, convState := some ASK_SERVICE },
              db)) := by
  intro uid s db
  refine ⟨rfl, ?_⟩
  intro p hp hne
  simp [step, hp, hne]

/-- C6 witness: the save-generated action on a session holding a
generated password. -/
theorem c6_reentry_keeps_fields_witness :
    ({ lastGenerated := some "Gen1", serviceName := some "OldService" }
        : Session).lastGenerated = some "Gen1" ∧ "Gen1" ≠ "" ∧
    step true 7
        { lastGenerated := some "Gen1", serviceName := some "OldService" }
        { rows := [], nextId := 1 } .btnSaveToManager
      = ({ lastGenerated := some "Gen1", serviceName := some "OldService",
           passwordToSave := some "Gen1", savingGenerated := true,
           waitingForService := true, convState := some ASK_SERVICE },
         { rows := [], nextId := 1 }) :=
  ⟨rfl, by decide, (c6_reentry_keeps_fields 7
      { lastGenerated := some "Gen1", serviceName := some "OldService" }
      { rows := [], nextId := 1 }).2 "Gen1" rfl (by decide)⟩

/-- C7: with storage enabled, for a session in AskService, an empty text
or a text longer than 100 characters leaves the session and the store
unchanged, while a non-empty text of length at most 100 stores it as the
service name and advances to AskUsername, still creating no vault row. -/
theorem c7_ask_service_validation :
    ∀ (uid : Nat) (s : Session) (db : VaultDB) (t : String),
      s.convState = some ASK_SERVICE →
      (s.adding = true ∨ s.waitingForService = true) →
      ((t = "" ∨ t.length > 100) →
        step true uid s db (.text t) = (s, db)) ∧
      (t ≠ "" → t.length ≤ 100 →
        step true uid s db (.text t)
          = ({ s with
                serviceName := some t,
                convState := some ASK_USERNAME }, db)) := by
  intro uid s db t hstate hflag
  have hguard : ¬((!s.adding && !s.waitingForService) = true) := by
    rcases hflag with h | h <;> simp [h]
  have hnone : ¬(s.convState = none) := by
    rw [hstate]
    simp
  have hnorm : handle_text_messages true uid s db t
      = handleTextInState true uid s db t ASK_SERVICE := by
    unfold handle_text_messages
    rw [if_neg (by decide), if_neg hguard, if_neg hnone]
    show handleTextInState true uid s db t (s.convState.getD ASK_SERVICE)
        = handleTextInState true uid s db t ASK_SERVICE
    rw [hstate, Option.getD_some]
  constructor
  · intro hbad
    show handle_text_messages true uid s db t = (s, db)
    rw [hnorm]
    unfold handleTextInState
    rw [if_pos rfl, if_pos hbad]
  · intro hne hlen
    have hbad : ¬(t = "" ∨ t.length > 100) := by
      push_neg
      exact ⟨hne, by omega⟩
    show handle_text_messages true uid s db t
        = ({ s with
              serviceName := some t, convState := some ASK_USERNAME }, db)
    rw [hnorm]
    unfold handleTextInState
    rw [if_pos rfl, if_neg hbad]

/-- C7 witness: the service text `GitHub` in state AskService. -/
theorem c7_ask_service_validation_witness :
    ({ adding := true, convState := some ASK_SERVICE }
        : Session).convState = some ASK_SERVICE ∧
    step true 7 { adding := true, convState := some ASK_SERVICE }
        { rows := [], nextId := 1 } (.text "GitHub")
      = ({ adding := true, convState := some ASK_USERNAME,
           serviceName := some "GitHub" }, { rows := [], nextId := 1 }) :=
  ⟨rfl, (c7_ask_service_validation 7
      { adding := true, convState := some ASK_SERVICE }
      { rows := [], nextId := 1 } "GitHub" rfl (Or.inl rfl)).2
    (by decide) (by decide)⟩
